import Mathlib

/-!
Verification of the PPTX reconstruction engine of canvas-create-flow.

The TypeScript sources under src/src/utils/pptx are embedded shallowly:
strings are lists of characters, JavaScript numbers are rationals, the
regular-expression scans of the source are translated regex-by-regex into
explicit leftmost-match scanners, and the PizZip archive handle is a list
of named byte entries.  Impure details of the source (console logging,
Date.now identifiers, thrown exceptions that the source catches locally)
are modelled by dropping the logs, threading an explicit clock value and
using total functions.
-/

namespace Pptx

/-- Strings of the embedded program are plain character lists. -/
abbrev Str := List Char

/-- Interpret a Lean string literal as an embedded-program string. -/
def lit (s : String) : Str := s.data

/-- Substring test, mirroring JavaScript String.prototype.includes. -/
def strIncludes (pat : Str) : Str → Bool
  | [] => pat.isPrefixOf []
  | c :: rest => pat.isPrefixOf (c :: rest) || strIncludes pat rest

/-- Numeric value of a decimal digit string. -/
def digitsToNat (ds : Str) : Nat := ds.foldl (fun n c => n * 10 + (c.toNat - 48)) 0

/-- Model of JavaScript parseInt(s, 10) restricted to the numeric case: an
optional leading minus sign followed by the longest run of decimal digits.
When the source string has no leading digits parseInt yields NaN; every
call site of the program feeds the value into arithmetic without branching
on NaN, and no claim concerns non-numeric attribute values, so that case is
modelled as 0. -/
def jsInt (s : Str) : Int :=
  match s with
  | '-' :: rest => -(Int.ofNat (digitsToNat (rest.takeWhile Char.isDigit)))
  | _ => Int.ofNat (digitsToNat (s.takeWhile Char.isDigit))

/-- Match a literal at the current position, returning the rest. -/
def pLit (l : Str) (s : Str) : Option Str :=
  if l.isPrefixOf s then some (s.drop l.length) else none

/-- Greedy character-class run ended by a mandatory stop character: the
regex fragment [^stop]* followed by the literal stop.  Returns the run and
the rest after the stop character.  Deterministic because the class cannot
match the stop character. -/
def pUntilChar (stop : Char) (s : Str) : Option (Str × Str) :=
  let pre := s.takeWhile (fun c => c ≠ stop)
  match s.drop pre.length with
  | [] => none
  | _ :: rest => some (pre, rest)

/-- Quoted-value tail: the regex fragment ([^"]*)" after an opening quote
already consumed by a preceding literal. -/
def pQuoted (s : Str) : Option (Str × Str) := pUntilChar '"' s

/-- Lazy star over a character class, ended by a closing literal: the regex
fragment ([class]*?)close.  At each position the close literal is tried
first, exactly as a lazy quantifier does. -/
def pLazyUntil (allowed : Char → Bool) (close : Str) : Str → Option (Str × Str)
  | [] => if close.isPrefixOf [] then some ([], []) else none
  | c :: rest =>
    if close.isPrefixOf (c :: rest) then some ([], (c :: rest).drop close.length)
    else if allowed c then
      match pLazyUntil allowed close rest with
      | some (content, after) => some (c :: content, after)
      | none => none
    else none

/-- Backtracking helper: try the continuation after dropping j characters,
for j from the given bound down to zero, longest first. -/
def pTryDrops (k : Str → Option α) (s : Str) : Nat → Option α
  | 0 => k s
  | j + 1 =>
    match k (s.drop (j + 1)) with
    | some a => some a
    | none => pTryDrops k s j

/-- Greedy star over a character class followed by an arbitrary
continuation, with backtracking: the regex fragment [class]* k.  The
longest class run is preferred, shorter runs are tried on failure. -/
def pGreedyClass (allowed : Char → Bool) (k : Str → Option α) (s : Str) : Option α :=
  pTryDrops k s (s.takeWhile allowed).length

/-- Mandatory whitespace run: the regex fragment \s+ whose continuation
starts with a non-whitespace literal, making the greedy run deterministic. -/
def pWs1 (s : Str) : Option Str :=
  let pre := s.takeWhile Char.isWhitespace
  if pre.isEmpty then none else some (s.drop pre.length)

/-- Leftmost match: try an attempt function at every position from left to
right, exactly as a JavaScript regex engine advances its starting index. -/
def searchFirst (attempt : Str → Option α) : Str → Option α
  | [] => attempt []
  | c :: rest =>
    match attempt (c :: rest) with
    | some a => some a
    | none => searchFirst attempt rest

/-- Repeated leftmost matching from the end of each previous match,
mirroring a global-flag regex driven by exec in a loop.  Fuel bounds the
number of matches; every pattern of the program consumes at least one
character, so an initial fuel of the subject length is always enough. -/
def searchAllFuel (attempt : Str → Option (α × Str)) : Nat → Str → List α
  | 0, _ => []
  | fuel + 1, s =>
    match searchFirst (fun t => attempt t) s with
    | none => []
    | some (a, rest) => a :: searchAllFuel attempt fuel rest

/-- Convenience wrapper choosing the always-sufficient fuel. -/
def searchAll (attempt : Str → Option (α × Str)) (s : Str) : List α :=
  searchAllFuel attempt (s.length + 1) s

/-- Whitespace trim, mirroring String.prototype.trim. -/
def strTrim (s : Str) : Str :=
  ((s.dropWhile Char.isWhitespace).reverse.dropWhile Char.isWhitespace).reverse

/-- Single global string replacement pass, mirroring
String.prototype.replace with a global literal pattern. -/
def replaceAllFuel (pat repl : Str) : Nat → Str → Str
  | 0, s => s
  | _ + 1, [] => []
  | fuel + 1, c :: rest =>
    if pat.isPrefixOf (c :: rest) ∧ pat ≠ [] then
      repl ++ replaceAllFuel pat repl fuel ((c :: rest).drop pat.length)
    else
      c :: replaceAllFuel pat repl fuel rest

/-- Replace every occurrence of a literal pattern. -/
def replaceAll (pat repl : Str) (s : Str) : Str :=
  replaceAllFuel pat repl s.length s

/-- Split a string on a separator character, mirroring
String.prototype.split with a one-character separator. -/
def strSplit (sep : Char) (s : Str) : List Str :=
  go s [] []
where
  go : Str → Str → List Str → List Str
  | [], cur, acc => (acc ++ [cur.reverse]).map id
  | c :: rest, cur, acc =>
    if c = sep then go rest [] (acc ++ [cur.reverse]) else go rest (c :: cur) acc

/-- Model of Array.prototype.pop on the result of split: the last chunk. -/
def lastChunk (l : List Str) : Option Str := l.getLast?

/-- Lower-case a string, mirroring String.prototype.toLowerCase on the
ASCII names occurring in packages. -/
def strLower (s : Str) : Str := s.map Char.toLower

/-- Suffix test, mirroring String.prototype.endsWith. -/
def strEndsWith (suf s : Str) : Bool := suf.isSuffixOf s

end Pptx

namespace Pptx

/-! Unit conversion, embedded from src/src/utils/pptx/units.ts with
JavaScript numbers modelled as rationals. -/

/-- Standard PowerPoint slide width in EMU (16:9 format). -/
def DEFAULT_SLIDE_WIDTH_EMU : ℚ := 12192000

/-- Standard PowerPoint slide height in EMU. -/
def DEFAULT_SLIDE_HEIGHT_EMU : ℚ := 6858000

/-- Target rendering width. -/
def RENDER_WIDTH : ℚ := 960

/-- Target rendering height. -/
def RENDER_HEIGHT : ℚ := 540

/-- EMU per inch. -/
def EMU_PER_INCH : ℚ := 914400

/-- EMU per point. -/
def EMU_PER_POINT : ℚ := 12700

/-- Pixels per inch. -/
def PIXELS_PER_INCH : ℚ := 96

/-- Scale factor from original slide dimensions and target render size. -/
def calculateScaleFactor (slideWidthEmu : ℚ := DEFAULT_SLIDE_WIDTH_EMU)
    (targetWidth : ℚ := RENDER_WIDTH) : ℚ :=
  targetWidth / (slideWidthEmu / EMU_PER_INCH * PIXELS_PER_INCH)

/-- EMU to pixels with optional scaling. -/
def emuToPixels (emu : ℚ) (scaleFactor : ℚ := 1) : ℚ :=
  emu / EMU_PER_INCH * PIXELS_PER_INCH * scaleFactor

/-- EMU to pixels for X coordinates with slide-width scaling. -/
def emuToScaledX (emu : ℚ) (slideWidthEmu : ℚ := DEFAULT_SLIDE_WIDTH_EMU) : ℚ :=
  emuToPixels emu (calculateScaleFactor slideWidthEmu)

/-- EMU to pixels for Y coordinates; the source keeps the width-derived
scale factor and ignores its height argument. -/
def emuToScaledY (emu : ℚ) (_slideHeightEmu : ℚ := DEFAULT_SLIDE_HEIGHT_EMU) : ℚ :=
  emuToPixels emu (calculateScaleFactor DEFAULT_SLIDE_WIDTH_EMU)

/-- EMU to typographic points, used for font sizes. -/
def emuToPoints (emu : ℚ) : ℚ := emu / EMU_PER_POINT

/-- Points to pixels at 72 points per inch. -/
def pointsToPixels (points : ℚ) : ℚ := points * PIXELS_PER_INCH / 72

end Pptx

namespace Pptx

/-! Color, fill and outline model, embedded from
src/src/utils/pptx/shapeExtractor.ts. -/

/-- Color union of the program: explicit RGB, theme-scheme reference or
named system color, matching the type tags rgb, scheme and system. -/
inductive PPTXColor where
  | rgb (value : Str)
  | scheme (value : Str)
  | system (value : Str)
deriving DecidableEq, Repr

/-- Gradient stop: percentage position and color. -/
structure PPTXGradientStop where
  position : ℚ
  color : PPTXColor
deriving DecidableEq, Repr

/-- Fill union of the program matching the type tags none, solid,
gradient, pattern and blip. -/
inductive PPTXFill where
  | noFill
  | solid (color : PPTXColor)
  | gradient (stops : List PPTXGradientStop) (angle : ℚ) (path : Option Str)
  | pattern (preset : Str) (foreColor backColor : PPTXColor)
  | blip (blip : Str) (stretch : Bool) (tile : Bool)
deriving DecidableEq, Repr

/-- Outline record: width in points, color and dash keyword. -/
structure PPTXOutline where
  width : ℚ
  color : PPTXColor
  dash : Str
deriving DecidableEq, Repr

/-- Attempt for the regex shape tag[^>]*attr="([^"]*)", where tag is an
opening-tag literal and attr ends with an opening quote; the greedy
attribute run backtracks to locate the attribute. -/
def pTagAttr (tag attrLit : Str) (s : Str) : Option (Str × Str) := do
  let r1 ← pLit tag s
  pGreedyClass (fun c => c ≠ '>') (fun r2 => do
    let r3 ← pLit attrLit r2
    pQuoted r3) r1

/-- Leftmost value of a tag-attribute regex over a whole fragment. -/
def searchTagAttr (tag attrLit : Str) (s : Str) : Option Str :=
  (searchFirst (pTagAttr tag attrLit) s).map Prod.fst

/-- Attempt for the plain attribute regex attr="([^"]*)". -/
def pAttrVal (attrLit : Str) (s : Str) : Option (Str × Str) := do
  let r ← pLit attrLit s
  pQuoted r

/-- Leftmost value of a plain attribute regex over a fragment. -/
def searchAttrVal (attrLit : Str) (s : Str) : Option Str :=
  (searchFirst (pAttrVal attrLit) s).map Prod.fst

/-- Attempt for the regex tag>([\s\S]*?)</tag>: an exact opening literal
followed by lazily matched content up to the closing literal. -/
def pTagged (openLit closeLit : Str) (s : Str) : Option (Str × Str) := do
  let r ← pLit openLit s
  pLazyUntil (fun _ => true) closeLit r

/-- Leftmost content of a tagged regex over a fragment. -/
def searchTagged (openLit closeLit : Str) (s : Str) : Option Str :=
  (searchFirst (pTagged openLit closeLit) s).map Prod.fst

/-- Color extraction from an XML fragment: explicit RGB first, then scheme
reference, then system color taking the resolved lastClr attribute as an
RGB value when present; anything else yields no color. -/
def extractColor (xmlContent : Str) : Option PPTXColor :=
  match searchTagAttr (lit "<a:srgbClr") (lit "val=\"") xmlContent with
  | some v => some (.rgb ('#' :: v))
  | none =>
    match searchTagAttr (lit "<a:schemeClr") (lit "val=\"") xmlContent with
    | some v => some (.scheme v)
    | none =>
      match searchTagAttr (lit "<a:sysClr") (lit "val=\"") xmlContent with
      | some v =>
        match searchAttrVal (lit "lastClr=\"") xmlContent with
        | some last => some (.rgb ('#' :: last))
        | none => some (.system v)
      | none => none

/-- Dash keyword extraction by literal checks, defaulting to solid. -/
def extractDashType (xmlContent : Str) : Str :=
  if strIncludes (lit "<a:prstDash val=\"solid\"/>") xmlContent then lit "solid"
  else if strIncludes (lit "<a:prstDash val=\"dot\"/>") xmlContent then lit "dot"
  else if strIncludes (lit "<a:prstDash val=\"dash\"/>") xmlContent then lit "dash"
  else if strIncludes (lit "<a:prstDash val=\"dashDot\"/>") xmlContent then lit "dash-dot"
  else if strIncludes (lit "<a:prstDash val=\"lgDash\"/>") xmlContent then lit "long-dash"
  else if strIncludes (lit "<a:prstDash val=\"lgDashDot\"/>") xmlContent then lit "long-dash-dot"
  else if strIncludes (lit "<a:prstDash val=\"lgDashDotDot\"/>") xmlContent then lit "long-dash-dot-dot"
  else lit "solid"

/-- Attempt for the gradient-fill regex
<a:gradFill([^>]*)>([\s\S]*?)</a:gradFill>, yielding attributes and
content. -/
def pGradFill (s : Str) : Option ((Str × Str) × Str) := do
  let r1 ← pLit (lit "<a:gradFill") s
  let (attrs, r2) ← pUntilChar '>' r1
  let (content, rest) ← pLazyUntil (fun _ => true) (lit "</a:gradFill>") r2
  some ((attrs, content), rest)

/-- Attempt for the gradient-stop regex
<a:gs pos="([^"]*)"[^>]*>([\s\S]*?)</a:gs>. -/
def pGradStop (s : Str) : Option ((Str × Str) × Str) := do
  let r1 ← pLit (lit "<a:gs pos=\"") s
  let (pos, r2) ← pQuoted r1
  let (_, r3) ← pUntilChar '>' r2
  let (content, rest) ← pLazyUntil (fun _ => true) (lit "</a:gs>") r3
  some ((pos, content), rest)

/-- Gradient stops parsed from a gradient-stop list fragment: native
thousandths positions divided by 1000, keeping only stops whose color was
extracted. -/
def gradStopsOf (stopsContent : Str) : List PPTXGradientStop :=
  (searchAll pGradStop stopsContent).filterMap fun pc =>
    (extractColor pc.2).map fun color => ⟨(jsInt pc.1 : ℚ) / 1000, color⟩

/-- Synthesized two-stop white-to-black gradient used when no stop was
extracted. -/
def defaultGradientStops : List PPTXGradientStop :=
  [⟨0, .rgb (lit "#FFFFFF")⟩, ⟨100, .rgb (lit "#000000")⟩]

/-- Stops parsed from a gradient-fill content fragment: the stop list
section when present, scanned for stops. -/
def parsedStopsOf (gradContent : Str) : List PPTXGradientStop :=
  match searchTagged (lit "<a:gsLst>") (lit "</a:gsLst>") gradContent with
  | some stopsContent => gradStopsOf stopsContent
  | none => []

/-- Attempt for the pattern-fill regex
<a:pattFill[^>]*prst="([^"]*)"[^>]*>([\s\S]*?)</a:pattFill>. -/
def pPattFill (s : Str) : Option ((Str × Str) × Str) := do
  let r1 ← pLit (lit "<a:pattFill") s
  pGreedyClass (fun c => c ≠ '>') (fun r2 => do
    let r3 ← pLit (lit "prst=\"") r2
    let (preset, r4) ← pQuoted r3
    let (_, r5) ← pUntilChar '>' r4
    let (content, rest) ← pLazyUntil (fun _ => true) (lit "</a:pattFill>") r5
    some ((preset, content), rest)) r1

/-- Attempt for the blip-fill regex <a:blipFill[^>]*>([\s\S]*?)</a:blipFill>. -/
def pBlipFill (s : Str) : Option (Str × Str) := do
  let r1 ← pLit (lit "<a:blipFill") s
  let (_, r2) ← pUntilChar '>' r1
  pLazyUntil (fun _ => true) (lit "</a:blipFill>") r2

/-- Attempt for the tile regex <a:tile[^>]*\/?>. -/
def pTile (s : Str) : Option (Unit × Str) := do
  let r1 ← pLit (lit "<a:tile") s
  let (_, r2) ← pUntilChar '>' r1
  some ((), r2)

/-- Fill extraction from a shape node, in the order of the source: no-fill
marker, solid, gradient, pattern, blip, then the default opaque white. -/
def extractFill (shapeNode : Str) : Option PPTXFill :=
  if strIncludes (lit "<a:noFill/>") shapeNode then some .noFill
  else
    match
      (searchTagged (lit "<a:solidFill>") (lit "</a:solidFill>") shapeNode).bind extractColor
    with
    | some color => some (.solid color)
    | none =>
      match searchFirst pGradFill shapeNode with
      | some ((gradAttrs, gradContent), _) =>
        let pathVal := searchTagAttr (lit "<a:path") (lit "path=\"") gradContent
        let path : Option Str :=
          match pathVal with
          | some p =>
            if p = lit "circle" ∨ p = lit "rect" ∨ p = lit "shape" then some p else none
          | none => none
        let angle : ℚ :=
          match pathVal with
          | some _ => 0
          | none =>
            match searchAttrVal (lit "rot=\"") gradAttrs with
            | some r => (jsInt r : ℚ) / 60000
            | none => 0
        let parsed := parsedStopsOf gradContent
        let stops := if parsed.isEmpty then defaultGradientStops else parsed
        some (.gradient stops angle path)
      | none =>
        match searchFirst pPattFill shapeNode with
        | some ((preset, content), _) =>
          let foreColor :=
            match searchTagged (lit "<a:fgClr>") (lit "</a:fgClr>") content with
            | some c => (extractColor c).getD (.rgb (lit "#000000"))
            | none => .rgb (lit "#000000")
          let backColor :=
            match searchTagged (lit "<a:bgClr>") (lit "</a:bgClr>") content with
            | some c => (extractColor c).getD (.rgb (lit "#FFFFFF"))
            | none => .rgb (lit "#FFFFFF")
          some (.pattern preset foreColor backColor)
        | none =>
          match searchFirst pBlipFill shapeNode with
          | some (content, _) =>
            let blip :=
              match searchAttrVal (lit "r:embed=\"") content with
              | some e => e
              | none => lit "image"
            let hasStretch := strIncludes (lit "<a:stretch>") content
            let hasTile := strIncludes (lit "<a:tile") content
            let tile := hasTile && (searchFirst pTile content).isSome
            some (.blip blip hasStretch tile)
          | none => some (.solid (.rgb (lit "#FFFFFF")))

/-- Character class of the mistyped regex fragment [\\s\\S] appearing in
several source regex literals: inside a regex literal the doubled
backslashes denote a class containing only the backslash character and the
letters s and S, so the lazy star can only cross those characters. -/
def bugClass (c : Char) : Bool := c = 's' || c = 'S' || c = '\\'

/-- Attempt for the mistyped regex <a:ln[^>]*>([\\s\\S]*?)</a:ln> of the
outline extractor, yielding the reconstructed full match and the content. -/
def pLn (s : Str) : Option ((Str × Str) × Str) := do
  let r1 ← pLit (lit "<a:ln") s
  let (attrs, r2) ← pUntilChar '>' r1
  let (content, rest) ← pLazyUntil bugClass (lit "</a:ln>") r2
  some ((lit "<a:ln" ++ attrs ++ '>' :: content ++ lit "</a:ln>", content), rest)

/-- Outline extraction: explicit no-line marker first, then the (mistyped)
line-element regex; width converts EMU to points with a 1pt default. -/
def extractOutline (shapeNode : Str) : Option PPTXOutline :=
  if strIncludes (lit "<a:ln><a:noFill/>") shapeNode then none
  else
    match searchFirst pLn shapeNode with
    | none => none
    | some ((full, lnContent), _) =>
      let width : ℚ :=
        match searchAttrVal (lit "w=\"") full with
        | some w => (jsInt w : ℚ) / 12700
        | none => 1
      let color := (extractColor lnContent).getD (.rgb (lit "#000000"))
      some ⟨width, color, extractDashType lnContent⟩

/-- Shape properties: fill and outline. -/
structure PPTXShapeProperties where
  fill : Option PPTXFill
  outline : Option PPTXOutline
deriving DecidableEq, Repr

/-- Shape properties extraction. -/
def extractShapeProperties (shapeNode : Str) : PPTXShapeProperties :=
  ⟨extractFill shapeNode, extractOutline shapeNode⟩

/-- Shape geometry preset: prstGeom attribute, else custom geometry
marker, else nothing (the caller defaults to rect). -/
def extractShapeType (shapeNode : Str) : Option Str :=
  match searchTagAttr (lit "<a:prstGeom") (lit "prst=\"") shapeNode with
  | some p => some p
  | none =>
    if strIncludes (lit "<a:custGeom") shapeNode then some (lit "custom") else none

/-- Attempt for the digit-valued identifier regex id="(\d+)". -/
def pIdDigits (s : Str) : Option (Str × Str) := do
  let r1 ← pLit (lit "id=\"") s
  let ds := r1.takeWhile Char.isDigit
  if ds.isEmpty then none
  else
    match r1.drop ds.length with
    | '"' :: rest => some (ds, rest)
    | _ => none

/-- Draw-order key, approximated by the node's numeric identifier. -/
def extractZIndex (node : Str) : Nat :=
  match searchFirst pIdDigits node with
  | some (ds, _) => digitsToNat ds
  | none => 0

/-- Attempt for the mistyped transform regex
<a:xfrm[^>]*>([\\s\\S]*?)</a:xfrm> used by the shape and text extractors:
its lazy star can only cross the characters s, S and backslash. -/
def pXfrmBug (s : Str) : Option (Str × Str) := do
  let r1 ← pLit (lit "<a:xfrm") s
  let (_, r2) ← pUntilChar '>' r1
  pLazyUntil bugClass (lit "</a:xfrm>") r2

/-- Attempt for the correct transform regex
<a:xfrm[^>]*>([\s\S]*?)</a:xfrm> used by the image extractor. -/
def pXfrmGood (s : Str) : Option (Str × Str) := do
  let r1 ← pLit (lit "<a:xfrm") s
  let (_, r2) ← pUntilChar '>' r1
  pLazyUntil (fun _ => true) (lit "</a:xfrm>") r2

/-- Attempt for the offset regex <a:off[^>]*x="([^"]*)"[^>]*y="([^"]*)",
with the greedy attribute runs backtracking as in the source engine. -/
def pOffXY (s : Str) : Option ((Str × Str) × Str) := do
  let r1 ← pLit (lit "<a:off") s
  pGreedyClass (fun c => c ≠ '>') (fun r2 => do
    let r3 ← pLit (lit "x=\"") r2
    let (xv, r4) ← pQuoted r3
    pGreedyClass (fun c => c ≠ '>') (fun r5 => do
      let r6 ← pLit (lit "y=\"") r5
      let (yv, rest) ← pQuoted r6
      some ((xv, yv), rest)) r4) r1

/-- Attempt for the extent regex <a:ext[^>]*cx="([^"]*)"[^>]*cy="([^"]*)". -/
def pExtXY (s : Str) : Option ((Str × Str) × Str) := do
  let r1 ← pLit (lit "<a:ext") s
  pGreedyClass (fun c => c ≠ '>') (fun r2 => do
    let r3 ← pLit (lit "cx=\"") r2
    let (xv, r4) ← pQuoted r3
    pGreedyClass (fun c => c ≠ '>') (fun r5 => do
      let r6 ← pLit (lit "cy=\"") r5
      let (yv, rest) ← pQuoted r6
      some ((xv, yv), rest)) r4) r1

/-- Geometry read from a transform: position, size, rotation, flips. -/
structure NodePosition where
  x : ℚ
  y : ℚ
  width : ℚ
  height : ℚ
  rotation : ℚ
  flipH : Bool
  flipV : Bool
deriving Repr

/-- Flip flags read by literal checks on a transform fragment. -/
def flipFlags (xfrmContent : Str) : Bool × Bool :=
  (strIncludes (lit "flipH=\"1\"") xfrmContent || strIncludes (lit "flipH=\"true\"") xfrmContent,
   strIncludes (lit "flipV=\"1\"") xfrmContent || strIncludes (lit "flipV=\"true\"") xfrmContent)

/-- Rotation read from a transform fragment: sixty-thousandths of a degree
under the plain rot attribute regex, defaulting to zero. -/
def rotationOf (xfrmContent : Str) : ℚ :=
  match searchAttrVal (lit "rot=\"") xfrmContent with
  | some r => (jsInt r : ℚ) / 60000
  | none => 0

/-- Shape position extraction: the transform regex of the source is the
mistyped one, its offset and extent are both required, and coordinates go
through the width-scaled EMU conversions called with their default slide
size. -/
def extractShapePosition (shapeNode : Str) : Option NodePosition :=
  match searchFirst pXfrmBug shapeNode with
  | none => none
  | some (xfrmContent, _) =>
    match searchFirst pOffXY xfrmContent, searchFirst pExtXY xfrmContent with
    | some ((xv, yv), _), some ((cxv, cyv), _) =>
      let fl := flipFlags xfrmContent
      some ⟨emuToScaledX (jsInt xv : Int), emuToScaledY (jsInt yv : Int),
            emuToScaledX (jsInt cxv : Int), emuToScaledY (jsInt cyv : Int),
            rotationOf xfrmContent, fl.1, fl.2⟩
    | _, _ => none

/-- Image position extraction: identical to the shape variant except that
its transform regex is the correct one. -/
def extractImagePosition (picNode : Str) : Option NodePosition :=
  match searchFirst pXfrmGood picNode with
  | none => none
  | some (xfrmContent, _) =>
    match searchFirst pOffXY xfrmContent, searchFirst pExtXY xfrmContent with
    | some ((xv, yv), _), some ((cxv, cyv), _) =>
      let fl := flipFlags xfrmContent
      some ⟨emuToScaledX (jsInt xv : Int), emuToScaledY (jsInt yv : Int),
            emuToScaledX (jsInt cxv : Int), emuToScaledY (jsInt cyv : Int),
            rotationOf xfrmContent, fl.1, fl.2⟩
    | _, _ => none

end Pptx

namespace Pptx

/-! Text reconstruction, embedded from src/src/utils/pptx/textExtractor.ts.
Paragraph-level block formatting and body-level layout hints of the source
are not modelled: no claim mentions them, and the shape extractor that
consumes this module never reaches its success path (its position regex is
the mistyped one).  Run-level character formatting is kept. -/

/-- Text run: content plus the character formatting the source extracts,
together with the color field that synthesized placeholder runs carry. -/
structure PPTXTextRun where
  text : Str
  bold : Bool
  italic : Bool
  underline : Bool
  strikethrough : Bool
  size : Option ℚ
  baseline : Option Str
  font : Option Str
  spacing : Option ℚ
  caps : Option Str
  color : Option PPTXColor
deriving Repr

/-- Default run with empty text and no formatting. -/
def defaultRun : PPTXTextRun :=
  ⟨[], false, false, false, false, none, none, none, none, none, none⟩

/-- Paragraph: joined text plus its runs. -/
structure PPTXParagraph where
  text : Str
  runs : List PPTXTextRun
deriving Repr

/-- Text element produced by the text reconstructor. -/
structure PPTXTextElement where
  id : Str
  x : ℚ
  y : ℚ
  width : ℚ
  height : ℚ
  paragraphs : List PPTXParagraph
deriving Repr

/-- XML entity decoding applied to run text, in source order. -/
def decodeEntities (t : Str) : Str :=
  replaceAll (lit "&apos;") [Char.ofNat 39]
    (replaceAll (lit "&quot;") (lit "\"")
      (replaceAll (lit "&amp;") (lit "&")
        (replaceAll (lit "&gt;") (lit ">")
          (replaceAll (lit "&lt;") (lit "<") t))))

/-- Run formatting read from an attribute string. -/
def extractRunPropertiesFromAttrs (attrsStr : Str) : PPTXTextRun :=
  let size :=
    match searchAttrVal (lit "sz=\"") attrsStr with
    | some v => some ((jsInt v : ℚ) / 100)
    | none => none
  let bold := strIncludes (lit "b=\"1\"") attrsStr || strIncludes (lit "b=\"true\"") attrsStr
  let italic := strIncludes (lit "i=\"1\"") attrsStr || strIncludes (lit "i=\"true\"") attrsStr
  let underline :=
    match searchAttrVal (lit "u=\"") attrsStr with
    | some v => v ≠ lit "none"
    | none => false
  let strikethrough := strIncludes (lit "strike=\"sngStrike\"") attrsStr
  let baseline :=
    if strIncludes (lit "baseline=\"30000\"") attrsStr then some (lit "superscript")
    else if strIncludes (lit "baseline=\"-25000\"") attrsStr then some (lit "subscript")
    else none
  let font := searchAttrVal (lit "typeface=\"") attrsStr
  let spacing :=
    match searchAttrVal (lit "spc=\"") attrsStr with
    | some v => some ((jsInt v : ℚ) / 100)
    | none => none
  let caps :=
    if strIncludes (lit "cap=\"all\"") attrsStr then some (lit "all")
    else if strIncludes (lit "cap=\"small\"") attrsStr then some (lit "small")
    else none
  ⟨[], bold, italic, underline, strikethrough, size, baseline, font, spacing, caps, none⟩

/-- Attempt for the mistyped run-properties regex
<a:rPr([^>]*)>([\\s\\S]*?)</a:rPr>. -/
def pRPr (s : Str) : Option ((Str × Str) × Str) := do
  let r1 ← pLit (lit "<a:rPr") s
  let (attrs, r2) ← pUntilChar '>' r1
  let (content, rest) ← pLazyUntil bugClass (lit "</a:rPr>") r2
  some ((attrs, content), rest)

/-- Run formatting of a run fragment, defaulting when the (mistyped)
run-properties regex finds nothing. -/
def extractRunProperties (runContent : Str) : PPTXTextRun :=
  match searchFirst pRPr runContent with
  | none => defaultRun
  | some ((attrs, _), _) => extractRunPropertiesFromAttrs attrs

/-- Attempt for the mistyped tagged regex tag>([\\s\\S]*?)</tag>. -/
def pTaggedBug (openLit closeLit : Str) (s : Str) : Option (Str × Str) := do
  let r ← pLit openLit s
  pLazyUntil bugClass closeLit r

/-- Attempt for the mistyped field-run regex <a:fld[^>]*>([\\s\\S]*?)</a:fld>. -/
def pFld (s : Str) : Option (Str × Str) := do
  let r1 ← pLit (lit "<a:fld") s
  let (_, r2) ← pUntilChar '>' r1
  pLazyUntil bugClass (lit "</a:fld>") r2

/-- Attempt for the end-paragraph regex <a:endParaRPr([^>]*)\/>. -/
def pEndParaRPr (s : Str) : Option (Str × Str) := do
  let r1 ← pLit (lit "<a:endParaRPr") s
  let run := r1.takeWhile (fun c => c ≠ '>')
  match r1.drop run.length with
  | '>' :: rest =>
    if run.getLast? = some '/' then some (run.dropLast, rest) else none
  | _ => none

/-- Text of a run fragment: the (mistyped) a:t regex, entity-decoded. -/
def runTextOf (content : Str) : Str :=
  match searchFirst (pTaggedBug (lit "<a:t>") (lit "</a:t>")) content with
  | some (t, _) => decodeEntities t
  | none => []

/-- Run extraction from a paragraph fragment: literal runs, then field
runs, then the empty formatting-only run when a lone end-paragraph marker
is present. -/
def extractTextRuns (paragraphContent : Str) : List PPTXTextRun :=
  let literalRuns :=
    (searchAll (pTaggedBug (lit "<a:r>") (lit "</a:r>")) paragraphContent).map fun content =>
      { extractRunProperties content with text := runTextOf content }
  let fieldRuns :=
    (searchAll pFld paragraphContent).filterMap fun content =>
      match searchFirst (pTaggedBug (lit "<a:t>") (lit "</a:t>")) content with
      | some (t, _) => some { extractRunProperties content with text := decodeEntities t }
      | none => none
  let runs := literalRuns ++ fieldRuns
  match searchFirst pEndParaRPr paragraphContent with
  | some (attrs, _) =>
    if runs.isEmpty then [{ extractRunPropertiesFromAttrs attrs with text := [] }] else runs
  | none => runs

/-- Paragraph extraction over the (mistyped) a:p regex. -/
def extractParagraphs (txBodyContent : Str) : List PPTXParagraph :=
  (searchAll (pTaggedBug (lit "<a:p>") (lit "</a:p>")) txBodyContent).map fun content =>
    let runs := extractTextRuns content
    ⟨(runs.map (fun r => r.text)).flatten, runs⟩

/-- Position of a text body taken from its parent shape, through the
mistyped transform regex and an EMU-to-points division by 9144 as in the
source. -/
def extractPositionFromShape (shapeNode : Str) : Option (ℚ × ℚ × ℚ × ℚ) :=
  match searchFirst pXfrmBug shapeNode with
  | none => none
  | some (xfrmContent, _) =>
    match searchFirst pOffXY xfrmContent, searchFirst pExtXY xfrmContent with
    | some ((xv, yv), _), some ((cxv, cyv), _) =>
      some ((jsInt xv : ℚ) / 9144, (jsInt yv : ℚ) / 9144,
            (jsInt cxv : ℚ) / 9144, (jsInt cyv : ℚ) / 9144)
    | _, _ => none

/-- Text reconstruction for one shape node: requires the (mistyped)
text-body regex, an identifier, a position and at least one paragraph.
The Math.random fallback identifier of the source is modelled by a fixed
marker since no claim depends on it. -/
def extractTextFromShape (shapeNode : Str) : Option PPTXTextElement :=
  match searchFirst (pTaggedBug (lit "<p:txBody>") (lit "</p:txBody>")) shapeNode with
  | none => none
  | some (txBodyContent, _) =>
    let id :=
      match searchFirst pIdDigits shapeNode with
      | some (ds, _) => ds
      | none => lit "text-random"
    match extractPositionFromShape shapeNode with
    | none => none
    | some (x, y, w, h) =>
      let paragraphs := extractParagraphs txBodyContent
      if paragraphs.isEmpty then none else some ⟨id, x, y, w, h, paragraphs⟩

end Pptx

namespace Pptx

/-! Image resolution, embedded from src/src/utils/pptx/imageExtractor.ts
and the relationship helpers of src/src/utils/pptx (relationParser). The
PizZip archive is modelled as a list of named byte entries. -/

/-- One archive entry: path and raw bytes. -/
structure ZipFile where
  name : Str
  bytes : List Nat

/-- Archive handle. -/
abbrev Zip := List ZipFile

/-- Exact-path entry lookup, mirroring zip.file(path). -/
def zipFileAt (zip : Zip) (path : Str) : Option ZipFile :=
  zip.find? (fun f => f.name == path)

/-- Relationship table of one part: identifier to raw target. -/
abbrev RelMap := List (Str × Str)

/-- Relationship lookup, mirroring relationships[id]. -/
def relLookup (relationships : RelMap) (id : Str) : Option Str :=
  (relationships.find? (fun p => p.1 == id)).map (fun p => p.2)

/-- Relative path resolution against a base directory: parent markers pop,
current-directory markers are skipped, other segments are appended. -/
def resolveRelativePath (relativePath baseDir : Str) : Str :=
  let parts := strSplit '/' relativePath
  let baseParts := strSplit '/' baseDir
  List.intercalate (lit "/")
    (parts.foldl
      (fun acc part =>
        if part = lit ".." then acc.dropLast
        else if part ≠ lit "." then acc ++ [part]
        else acc)
      baseParts)

/-- Relationship target resolution: absolute targets drop the slash,
parent-relative targets walk up from the base directory, and plain targets
are relative to the base directory. -/
def resolveRelationshipTarget (target basePath : Str) : Str :=
  if (lit "/").isPrefixOf target then target.drop 1
  else
    let baseDir := List.intercalate (lit "/") ((strSplit '/' basePath).dropLast)
    if (lit "../").isPrefixOf target then resolveRelativePath target baseDir
    else baseDir ++ lit "/" ++ target

/-- Conventional media directories tried when the exact path misses. -/
def POTENTIAL_IMAGE_PATHS : List Str :=
  [lit "", lit "ppt/media/", lit "media/", lit "word/media/", lit "xl/media/",
   lit "ppt/embeddings/", lit "embeddings/"]

/-- Prefix loop of the path-strategy search. -/
def findImageGo (imagePath : Str) (zip : Zip) : List Str → Option ZipFile
  | [] => none
  | pre :: rest =>
    if pre = [] ∧ strIncludes (lit "/") imagePath then findImageGo imagePath zip rest
    else
      match lastChunk (strSplit '/' imagePath) with
      | none => findImageGo imagePath zip rest
      | some fileName =>
        if fileName.isEmpty then findImageGo imagePath zip rest
        else
          match zipFileAt zip (pre ++ fileName) with
          | some f => some f
          | none =>
            match
              (zip.filter (fun f => ¬ f.name.isEmpty)).find?
                (fun f => strEndsWith (strLower fileName) (strLower f.name))
            with
            | some f => some f
            | none => findImageGo imagePath zip rest

/-- Path-strategy search in the archive: the exact path, then each
conventional directory joined with the bare filename, each followed by a
case-insensitive filename-suffix scan over all nonempty-named entries. -/
def findImageInZip (imagePath : Str) (zip : Zip) : Option ZipFile :=
  match zipFileAt zip imagePath with
  | some f => some f
  | none => findImageGo imagePath zip POTENTIAL_IMAGE_PATHS

/-- Base64 alphabet. -/
def base64Chars : Str :=
  lit "ABCDEFGHIJKLMNOPQRSTUVWXYZabcdefghijklmnopqrstuvwxyz0123456789+/"

/-- Base64 digit at an index. -/
def b64At (n : Nat) : Char := base64Chars.getD n '='

/-- Base64 encoding of a byte list with padding, modelling btoa and the
Buffer conversion of the source. -/
def base64Encode : List Nat → Str
  | [] => []
  | [a] => [b64At (a / 4), b64At (a % 4 * 16), '=', '=']
  | [a, b] => [b64At (a / 4), b64At (a % 4 * 16 + b / 16), b64At (b % 16 * 4), '=']
  | a :: b :: c :: rest =>
    b64At (a / 4) :: b64At (a % 4 * 16 + b / 16) :: b64At (b % 16 * 4 + c / 64)
      :: b64At (c % 64) :: base64Encode rest

/-- Model of btoa on a latin1 string: base64 of the character codes. -/
def btoa (s : Str) : Str := base64Encode (s.map Char.toNat)

/-- MIME type inferred from the path extension, defaulting to JPEG. -/
def mimeOf (imagePath : Str) : Str :=
  match (lastChunk (strSplit '.' imagePath)).map strLower with
  | some e =>
    if e = lit "png" then lit "image/png"
    else if e = lit "gif" then lit "image/gif"
    else if e = lit "svg" then lit "image/svg+xml"
    else if e = lit "wmf" then lit "image/wmf"
    else if e = lit "emf" then lit "image/emf"
    else lit "image/jpeg"
  | none => lit "image/jpeg"

/-- Data URL of an archived image, or nothing when every path strategy
misses. -/
def createImageDataUrl (imagePath : Str) (zip : Zip) : Option Str :=
  match findImageInZip imagePath zip with
  | none => none
  | some f => some (lit "data:" ++ mimeOf imagePath ++ lit ";base64," ++ base64Encode f.bytes)

/-- Synthesized placeholder payload: a small SVG data URL carrying the
display name and an image-not-found caption. -/
def generatePlaceholderImage (name : Str) : Str :=
  let text := name.take 20 ++ (if name.length > 20 then lit "..." else [])
  let svg :=
    lit "<svg xmlns=\"http://www.w3.org/2000/svg\" width=\"200\" height=\"150\" viewBox=\"0 0 200 150\">\n    <rect width=\"200\" height=\"150\" fill=\"#f0f0f0\" stroke=\"#ccc\" stroke-width=\"2\"/>\n    <text x=\"50%\" y=\"50%\" font-family=\"Arial\" font-size=\"14\" text-anchor=\"middle\" fill=\"#666\">\n      "
      ++ text
      ++ lit "\n    </text>\n    <text x=\"50%\" y=\"70%\" font-family=\"Arial\" font-size=\"12\" text-anchor=\"middle\" fill=\"#999\">\n      Image not found\n    </text>\n  </svg>"
  lit "data:image/svg+xml;base64," ++ btoa svg

/-- Crop rectangle in percentage insets. -/
structure CropRect where
  left : ℚ
  right : ℚ
  top : ℚ
  bottom : ℚ
deriving Repr

/-- Image data hints: crop rectangle, brightness, contrast. -/
structure PPTXImageData where
  cropRect : Option CropRect
  brightness : Option ℚ
  contrast : Option ℚ
deriving Repr

/-- Attempt for the source-rectangle regex <a:srcRect[^>]*, whose whole
match is then scanned for the four inset attributes. -/
def pSrcRect (s : Str) : Option (Str × Str) := do
  let r1 ← pLit (lit "<a:srcRect") s
  let run := r1.takeWhile (fun c => c ≠ '>')
  some (lit "<a:srcRect" ++ run, r1.drop run.length)

/-- Image data extraction: crop insets in thousandths, luminance
modulation as brightness and luminance offset as contrast. -/
def extractImageData (picNode : Str) : PPTXImageData :=
  let cropRect :=
    match searchFirst pSrcRect picNode with
    | none => none
    | some (srcRect, _) =>
      let l := searchAttrVal (lit "l=\"") srcRect
      let r := searchAttrVal (lit "r=\"") srcRect
      let t := searchAttrVal (lit "t=\"") srcRect
      let b := searchAttrVal (lit "b=\"") srcRect
      if l.isSome || r.isSome || t.isSome || b.isSome then
        some ⟨((l.map jsInt).getD 0 : ℚ) / 1000, ((r.map jsInt).getD 0 : ℚ) / 1000,
              ((t.map jsInt).getD 0 : ℚ) / 1000, ((b.map jsInt).getD 0 : ℚ) / 1000⟩
      else none
  let brightness :=
    match searchTagAttr (lit "<a:lumMod") (lit "val=\"") picNode with
    | some v => some ((jsInt v : ℚ) / 100000 - 1)
    | none => none
  let contrast :=
    match searchTagAttr (lit "<a:lumOff") (lit "val=\"") picNode with
    | some v => some ((jsInt v : ℚ) / 100000)
    | none => none
  ⟨cropRect, brightness, contrast⟩

/-- Embed-relationship resolution of a picture node against the slide
part directory. -/
def extractImageSource (picNode : Str) (relationships : RelMap) (basePath : Str) : Option Str :=
  match searchTagAttr (lit "<a:blip") (lit "r:embed=\"") picNode with
  | none => none
  | some relationshipId =>
    match relLookup relationships relationshipId with
    | none => none
    | some target => some (resolveRelationshipTarget target basePath)

end Pptx

namespace Pptx

/-! Element model and the per-node extractors of
src/src/utils/pptx/shapeExtractor.ts and imageExtractor.ts. -/

/-- Element union of the program: shape, text, image or group, each with
the fields the source constructs.  Group-relative coordinates are the
dynamic properties attached when a node is extracted inside a group. -/
inductive PPTXElement where
  | shape (id name : Str) (shapeType : Str) (x y width height rotation : ℚ)
      (flipH flipV : Bool) (shapeProperties : PPTXShapeProperties)
      (textContent : Option PPTXTextElement) (zIndex : Nat)
      (groupRelativeX groupRelativeY : Option ℚ)
  | text (id : Str) (x y width height : ℚ) (zIndex : Nat) (paragraphs : List PPTXParagraph)
  | image (id name : Str) (x y width height rotation : ℚ) (flipH flipV : Bool)
      (src content : Str) (imageData : PPTXImageData) (zIndex : Nat) (isPlaceholder : Bool)
      (groupRelativeX groupRelativeY : Option ℚ)
  | group (id : Str) (x y width height rotation : ℚ) (children : List PPTXElement) (zIndex : Nat)

/-- Draw-order key of an element, always set by the constructors of the
program, so the JavaScript zIndex-or-zero read is the field itself. -/
def PPTXElement.zVal : PPTXElement → Nat
  | .shape _ _ _ _ _ _ _ _ _ _ _ _ z _ _ => z
  | .text _ _ _ _ _ z _ => z
  | .image _ _ _ _ _ _ _ _ _ _ _ _ z _ _ _ => z
  | .group _ _ _ _ _ _ _ z => z

/-- Horizontal position of an element. -/
def PPTXElement.xVal : PPTXElement → ℚ
  | .shape _ _ _ x _ _ _ _ _ _ _ _ _ _ _ => x
  | .text _ x _ _ _ _ _ => x
  | .image _ _ x _ _ _ _ _ _ _ _ _ _ _ _ _ => x
  | .group _ x _ _ _ _ _ _ => x

/-- Vertical position of an element. -/
def PPTXElement.yVal : PPTXElement → ℚ
  | .shape _ _ _ _ y _ _ _ _ _ _ _ _ _ _ => y
  | .text _ _ y _ _ _ _ => y
  | .image _ _ _ y _ _ _ _ _ _ _ _ _ _ _ _ => y
  | .group _ _ y _ _ _ _ _ => y

/-- Retained group-local horizontal coordinate, when one was attached. -/
def PPTXElement.groupRelX : PPTXElement → Option ℚ
  | .shape _ _ _ _ _ _ _ _ _ _ _ _ _ gx _ => gx
  | .image _ _ _ _ _ _ _ _ _ _ _ _ _ _ gx _ => gx
  | _ => none

/-- Retained group-local vertical coordinate, when one was attached. -/
def PPTXElement.groupRelY : PPTXElement → Option ℚ
  | .shape _ _ _ _ _ _ _ _ _ _ _ _ _ _ gy => gy
  | .image _ _ _ _ _ _ _ _ _ _ _ _ _ _ _ gy => gy
  | _ => none

/-- Group test. -/
def PPTXElement.isGroup : PPTXElement → Bool
  | .group _ _ _ _ _ _ _ _ => true
  | _ => false

/-- Children of a group, empty for other variants. -/
def PPTXElement.childrenOf : PPTXElement → List PPTXElement
  | .group _ _ _ _ _ _ children _ => children
  | _ => []

/-- Placeholder flag of an image element. -/
def PPTXElement.placeholderFlag : PPTXElement → Bool
  | .image _ _ _ _ _ _ _ _ _ _ _ _ _ p _ _ => p
  | _ => false

/-- Payload of an image element. -/
def PPTXElement.srcOf : PPTXElement → Str
  | .image _ _ _ _ _ _ _ _ _ src _ _ _ _ _ _ => src
  | _ => []

/-- Group-placement update applied to a child extracted inside a group:
the parsed position is retained as the group-relative coordinate and the
group position is added to the live position. -/
def offsetIntoGroup (gx gy : ℚ) : PPTXElement → PPTXElement
  | .shape id name st x y w h rot fH fV props txt z _ _ =>
    .shape id name st (x + gx) (y + gy) w h rot fH fV props txt z (some x) (some y)
  | .image id name x y w h rot fH fV src content imgData z ph _ _ =>
    .image id name (x + gx) (y + gy) w h rot fH fV src content imgData z ph (some x) (some y)
  | e => e

/-- Payload replacement on an image element, used when the picture scan
re-resolves a source path into a data URL. -/
def setSrc (newSrc : Str) : PPTXElement → PPTXElement
  | .image id name x y w h rot fH fV _ content imgData z ph gx gy =>
    .image id name x y w h rot fH fV newSrc content imgData z ph gx gy
  | e => e

/-- Shape extraction for one shape node.  The slide text, relationships,
archive, original size and scale factor parameters of the source are
unused by its body and kept for signature fidelity. -/
def extractShape (_xml : Str) (shapeNode : Str) (_relationships : RelMap) (_zip : Zip)
    (_originalSizeEmu : Option (ℚ × ℚ) := none) (_scaleFactor : ℚ := 1) :
    Option PPTXElement :=
  match searchFirst pIdDigits shapeNode with
  | none => none
  | some (id, _) =>
    let name :=
      match searchAttrVal (lit "name=\"") shapeNode with
      | some n => n
      | none => lit "Shape " ++ id
    match extractShapePosition shapeNode with
    | none => none
    | some pos =>
      let shapeType := (extractShapeType shapeNode).getD (lit "rect")
      let shapeProperties := extractShapeProperties shapeNode
      let textContent := extractTextFromShape shapeNode
      some (.shape id name shapeType pos.x pos.y pos.width pos.height pos.rotation
        pos.flipH pos.flipV shapeProperties textContent (extractZIndex shapeNode) none none)

/-- Image extraction for one picture node: identifier, position and a
resolvable embed relationship are required; a missing binary yields the
synthesized placeholder payload with the placeholder flag set, never a
failure. -/
def extractImage (_xml : Str) (picNode : Str) (relationships : RelMap) (zip : Zip)
    (_originalSizeEmu : Option (ℚ × ℚ) := none) (_scaleFactor : ℚ := 1) :
    Option PPTXElement :=
  match searchFirst pIdDigits picNode with
  | none => none
  | some (id, _) =>
    let name :=
      match searchAttrVal (lit "name=\"") picNode with
      | some n => n
      | none => lit "Image " ++ id
    match extractImagePosition picNode with
    | none => none
    | some pos =>
      match extractImageSource picNode relationships (lit "ppt/slides") with
      | none => none
      | some src =>
        let imageData := extractImageData picNode
        match createImageDataUrl src zip with
        | none =>
          let placeholderUrl := generatePlaceholderImage name
          some (.image id name pos.x pos.y pos.width pos.height pos.rotation
            pos.flipH pos.flipV placeholderUrl placeholderUrl imageData
            (extractZIndex picNode) true none none)
        | some dataUrl =>
          some (.image id name pos.x pos.y pos.width pos.height pos.rotation
            pos.flipH pos.flipV dataUrl dataUrl imageData
            (extractZIndex picNode) false none none)

end Pptx

namespace Pptx

/-! Slide element pipeline, embedded from
src/src/utils/pptx/elementExtractor.ts.  The imperative element array is
modelled by passing the accumulated list and appending each function's
contribution; Date.now is an explicit clock argument. -/

/-- Attempt for the shape-node regex <p:sp(?:[^>]*)>([\s\S]*?)</p:sp>,
returning the reconstructed whole match handed to the shape extractor. -/
def pSpNode (s : Str) : Option (Str × Str) := do
  let r1 ← pLit (lit "<p:sp") s
  let (attrs, r2) ← pUntilChar '>' r1
  let (content, rest) ← pLazyUntil (fun _ => true) (lit "</p:sp>") r2
  some (lit "<p:sp" ++ attrs ++ '>' :: content ++ lit "</p:sp>", rest)

/-- Attempt for the picture-node regex <p:pic[^>]*>([\s\S]*?)</p:pic>. -/
def pPicNode (s : Str) : Option (Str × Str) := do
  let r1 ← pLit (lit "<p:pic") s
  let (attrs, r2) ← pUntilChar '>' r1
  let (content, rest) ← pLazyUntil (fun _ => true) (lit "</p:pic>") r2
  some (lit "<p:pic" ++ attrs ++ '>' :: content ++ lit "</p:pic>", rest)

/-- Attempt for the group regex <p:grpSp([^>]*)>([\s\S]*?)</p:grpSp>,
yielding attributes and content. -/
def pGrpSp (s : Str) : Option ((Str × Str) × Str) := do
  let r1 ← pLit (lit "<p:grpSp") s
  let (attrs, r2) ← pUntilChar '>' r1
  let (content, rest) ← pLazyUntil (fun _ => true) (lit "</p:grpSp>") r2
  some ((attrs, content), rest)

/-- Attempt for the group transform regex
<p:xfrm([^>]*)>([\s\S]*?)</p:xfrm>. -/
def pPXfrm (s : Str) : Option ((Str × Str) × Str) := do
  let r1 ← pLit (lit "<p:xfrm") s
  let (attrs, r2) ← pUntilChar '>' r1
  let (content, rest) ← pLazyUntil (fun _ => true) (lit "</p:xfrm>") r2
  some ((attrs, content), rest)

/-- Optional-slash closing of a self-closable tag: the regex fragment \/?>. -/
def pSlashGt (s : Str) : Option Str :=
  match pLit (lit "/>") s with
  | some r => some r
  | none => pLit (lit ">") s

/-- Attempt for the whitespace-separated offset regex
<a:off\s+x="([^"]*)"\s+y="([^"]*)"\/?> used for group transforms. -/
def pOffWs (s : Str) : Option ((Str × Str) × Str) := do
  let r1 ← pLit (lit "<a:off") s
  let r2 ← pWs1 r1
  let r3 ← pLit (lit "x=\"") r2
  let (xv, r4) ← pQuoted r3
  let r5 ← pWs1 r4
  let r6 ← pLit (lit "y=\"") r5
  let (yv, r7) ← pQuoted r6
  let rest ← pSlashGt r7
  some ((xv, yv), rest)

/-- Attempt for the whitespace-separated extent regex
<a:ext\s+cx="([^"]*)"\s+cy="([^"]*)"\/?>. -/
def pExtWs (s : Str) : Option ((Str × Str) × Str) := do
  let r1 ← pLit (lit "<a:ext") s
  let r2 ← pWs1 r1
  let r3 ← pLit (lit "cx=\"") r2
  let (xv, r4) ← pQuoted r3
  let r5 ← pWs1 r4
  let r6 ← pLit (lit "cy=\"") r5
  let (yv, r7) ← pQuoted r6
  let rest ← pSlashGt r7
  some ((xv, yv), rest)

/-- Attempt for the group rotation regex rot="([^"]*)"\/?>, which demands
a closing bracket and therefore never matches inside a bracketless
attribute string. -/
def pRotGt (s : Str) : Option (Str × Str) := do
  let r1 ← pLit (lit "rot=\"") s
  let (v, r2) ← pQuoted r1
  let rest ← pSlashGt r2
  some (v, rest)

/-- Attempt for the text-fragment regex <a:t>([^<]+)</a:t>. -/
def pAT (s : Str) : Option (Str × Str) := do
  let r1 ← pLit (lit "<a:t>") s
  let t := r1.takeWhile (fun c => c ≠ '<')
  if t.isEmpty then none
  else do
    let rest ← pLit (lit "</a:t>") (r1.drop t.length)
    some (t, rest)

/-- Minimum of a key list, zero on the empty list as in the source
conditional. -/
def listMin : List Nat → Nat
  | [] => 0
  | a :: rest => rest.foldl Nat.min a

/-- Fallback text element synthesized from loose text fragments when the
shape scan matched nothing although a shape opening is present. -/
def extractTextFromPlaceholdersDelta (spTreeContent : Str) (now : Nat) : List PPTXElement :=
  let textContents :=
    (searchAll pAT spTreeContent).filterMap fun t =>
      let tr := strTrim t
      if tr.isEmpty then none else some tr
  if textContents.isEmpty then []
  else
    [ .text (lit "text-" ++ (Nat.repr now).data) 50 50 600
        (max 50 ((textContents.length : ℚ) * 20)) 5
        (textContents.map fun t =>
          ⟨t, [⟨t, false, false, false, false, none, none, none, none, none,
                some (.rgb (lit "#000000"))⟩]⟩) ]

/-- Contribution of the shape scan: every extracted shape node, followed
by the loose-text fallback when the scan found no shape node at all but a
shape opening is present. -/
def extractShapeElementsDelta (slideXml spTreeContent : Str) (rels : RelMap) (zip : Zip)
    (now : Nat) : List PPTXElement :=
  let ms := searchAll pSpNode spTreeContent
  let pushed := ms.filterMap fun node => extractShape slideXml node rels zip
  pushed ++
    (if ms.isEmpty ∧ strIncludes (lit "<p:sp") spTreeContent then
      extractTextFromPlaceholdersDelta spTreeContent now
    else [])

/-- Shape scan appending to the accumulated element list. -/
def extractShapeElements (slideXml spTreeContent : Str) (rels : RelMap) (zip : Zip)
    (elements : List PPTXElement) (now : Nat) : List PPTXElement :=
  elements ++ extractShapeElementsDelta slideXml spTreeContent rels zip now

/-- Contribution of the picture scan: every extracted picture node, its
payload re-resolved into a data URL when the payload names an entry. -/
def extractPictureElementsDelta (slideXml spTreeContent : Str) (rels : RelMap) (zip : Zip) :
    List PPTXElement :=
  (searchAll pPicNode spTreeContent).filterMap fun node =>
    match extractImage slideXml node rels zip with
    | none => none
    | some image =>
      if image.srcOf.isEmpty then some image
      else
        match createImageDataUrl image.srcOf zip with
        | some dataUrl => some (setSrc dataUrl image)
        | none => some image

/-- Picture scan appending to the accumulated element list. -/
def extractPictureElements (slideXml spTreeContent : Str) (rels : RelMap) (zip : Zip)
    (elements : List PPTXElement) : List PPTXElement :=
  elements ++ extractPictureElementsDelta slideXml spTreeContent rels zip

/-- Processing of one matched group node: its own transform is required
field by field, children are gathered by shape and picture scans over the
group content and placed by adding the group position, and a childless
group degenerates to direct extraction of its content. -/
def processGroup (slideXml : Str) (rels : RelMap) (zip : Zip)
    (originalSizeEmu : Option (ℚ × ℚ)) (scaleFactor : ℚ) (now : Nat)
    (groupCount : Nat) (attrs content : Str) : List PPTXElement :=
  let groupId :=
    match searchAttrVal (lit "id=\"") attrs with
    | some v => v
    | none => lit "group-" ++ (Nat.repr now).data ++ lit "-" ++ (Nat.repr groupCount).data
  match searchFirst pPXfrm content with
  | none => []
  | some ((xfrmAttrs, xfrmContent), _) =>
    match searchFirst pOffWs xfrmContent with
    | none => []
    | some ((xv, yv), _) =>
      match searchFirst pExtWs xfrmContent with
      | none => []
      | some ((cxv, cyv), _) =>
        let x := (jsInt xv : ℚ) / 12700 * scaleFactor
        let y := (jsInt yv : ℚ) / 12700 * scaleFactor
        let width := (jsInt cxv : ℚ) / 12700 * scaleFactor
        let height := (jsInt cyv : ℚ) / 12700 * scaleFactor
        let rotation : ℚ :=
          match searchFirst pRotGt xfrmAttrs with
          | some (r, _) => (jsInt r : ℚ) / 60000
          | none => 0
        let childShapes :=
          (searchAll pSpNode content).filterMap fun node =>
            (extractShape slideXml node rels zip originalSizeEmu scaleFactor).map
              (offsetIntoGroup x y)
        let childPics :=
          (searchAll pPicNode content).filterMap fun node =>
            (extractImage slideXml node rels zip originalSizeEmu scaleFactor).map
              (offsetIntoGroup x y)
        let childElements := childShapes ++ childPics
        if childElements.isEmpty then
          extractShapeElementsDelta slideXml content rels zip now
            ++ extractPictureElementsDelta slideXml content rels zip
        else
          [.group groupId x y width height rotation childElements
            (listMin (childElements.map PPTXElement.zVal))]

/-- Diagnostic placeholder text element synthesized when a slide yielded
nothing. -/
def placeholderElement (now : Nat) : PPTXElement :=
  .text (lit "placeholder-" ++ (Nat.repr now).data) 50 50 400 100 1
    [⟨lit "Slide content could not be extracted",
      [⟨lit "Slide content could not be extracted", true, false, false, false,
        none, none, none, none, none, some (.rgb (lit "#333333"))⟩]⟩]

/-- Group scan: every matched group node is processed in order; if after
all extraction the accumulated list is still empty, the diagnostic
placeholder is pushed. -/
def extractGroupElements (slideXml spTreeContent : Str) (rels : RelMap) (zip : Zip)
    (elements : List PPTXElement) (originalSizeEmu : Option (ℚ × ℚ))
    (scaleFactor : ℚ) (now : Nat) : List PPTXElement :=
  let withGroups :=
    elements ++
      ((searchAll pGrpSp spTreeContent).enum.flatMap fun p =>
        processGroup slideXml rels zip originalSizeEmu scaleFactor now (p.1 + 1) p.2.1 p.2.2)
  if withGroups.isEmpty then [placeholderElement now] else withGroups

/-- Ascending draw-order relation on elements. -/
def zle (a b : PPTXElement) : Prop := a.zVal ≤ b.zVal

instance : DecidableRel zle := fun a b => inferInstanceAs (Decidable (a.zVal ≤ b.zVal))

/-- Stable ascending sort by draw-order key, modelling the stable
Array.prototype.sort with the numeric zIndex comparator. -/
def sortByZ (l : List PPTXElement) : List PPTXElement := List.insertionSort zle l

/-- Shape-tree container of a slide. -/
def spTreeMatchOf (slideXml : Str) : Option Str :=
  searchTagged (lit "<p:spTree>") (lit "</p:spTree>") slideXml

/-- Slide pipeline before sorting: shape scan, picture scan, group scan
over the shape-tree container, empty when the container is missing. -/
def extractSlideElementsUnsorted (slideXml : Str) (slideRels : RelMap) (zip : Zip)
    (originalSizeEmu : Option (ℚ × ℚ) := none) (scaleFactor : ℚ := 1) (now : Nat := 0) :
    List PPTXElement :=
  match spTreeMatchOf slideXml with
  | none => []
  | some spTreeContent =>
    let els1 := extractShapeElements slideXml spTreeContent slideRels zip [] now
    let els2 := extractPictureElements slideXml spTreeContent slideRels zip els1
    extractGroupElements slideXml spTreeContent slideRels zip els2 originalSizeEmu
      scaleFactor now

/-- Slide element extraction: the pipeline result sorted stably by
draw-order key. -/
def extractSlideElements (slideXml : Str) (slideRels : RelMap) (zip : Zip)
    (originalSizeEmu : Option (ℚ × ℚ) := none) (scaleFactor : ℚ := 1) (now : Nat := 0) :
    List PPTXElement :=
  sortByZ (extractSlideElementsUnsorted slideXml slideRels zip originalSizeEmu scaleFactor now)

end Pptx

set_option maxRecDepth 100000

namespace Pptx

/-! Specification predicates and concrete fixtures used by the claim
theorems. -/

/-- Placement property of a child inside a produced group element: the
parsed group-local coordinates are retained and the absolute position is
the group position plus those local coordinates. -/
def childPlacement (g c : PPTXElement) : Prop :=
  ∃ lx ly, c.groupRelX = some lx ∧ c.groupRelY = some ly ∧
    c.xVal = g.xVal + lx ∧ c.yVal = g.yVal + ly

/-- Specification satisfied by every group element the pipeline produces:
a nonempty child list, a draw-order key equal to the minimum of the
children's keys, and the child placement property. -/
def groupSpec (g : PPTXElement) : Prop :=
  g.childrenOf ≠ [] ∧ g.zVal = listMin (g.childrenOf.map PPTXElement.zVal) ∧
    ∀ c ∈ g.childrenOf, childPlacement g c

/-- Scan phase of one slide: the shape, picture and group contributions in
order, before the empty-slide placeholder check. -/
def scannedSlideElements (xml spc : Str) (rels : RelMap) (zip : Zip)
    (o : Option (ℚ × ℚ)) (sc : ℚ) (now : Nat) : List PPTXElement :=
  extractPictureElements xml spc rels zip (extractShapeElements xml spc rels zip [] now) ++
    (searchAll pGrpSp spc).enum.flatMap fun p =>
      processGroup xml rels zip o sc now (p.1 + 1) p.2.1 p.2.2

instance : IsTotal PPTXElement zle := ⟨fun a b => Nat.le_total a.zVal b.zVal⟩

instance : IsTrans PPTXElement zle := ⟨fun _ _ _ hab hbc => Nat.le_trans hab hbc⟩

/-- Picture node fixture: identifier 7, offset and extent of one inch in
EMU, and an embed relationship rId2. -/
def gPicNode : Str := lit "<p:pic><p:nvPicPr><p:cNvPr id=\"7\" name=\"P\"/></p:nvPicPr><p:blipFill><a:blip r:embed=\"rId2\"/></p:blipFill><p:spPr><a:xfrm><a:off x=\"914400\" y=\"914400\"/><a:ext cx=\"914400\" cy=\"914400\"/></a:xfrm></p:spPr></p:pic>"

/-- Slide fixture with one group holding the picture fixture. -/
def gSlide : Str := lit "<p:sld><p:spTree><p:grpSp id=\"9\"><p:grpSpPr><p:xfrm><a:off x=\"127000\" y=\"25400\"/><a:ext cx=\"254000\" cy=\"254000\"/></p:xfrm></p:grpSpPr>" ++ gPicNode ++ lit "</p:grpSp></p:spTree></p:sld>"

/-- Relationship fixture resolving rId2 into the media directory. -/
def gRels : RelMap := [(lit "rId2", lit "../media/img.png")]

/-- Archive fixture holding the three-byte image. -/
def gZip : Zip := [⟨lit "media/img.png", [1, 2, 3]⟩]

/-- Data URL the archive fixture resolves to. -/
def gUrl : Str := lit "data:image/png;base64,AQID"

/-- Child element the group fixture produces: parsed at 72 pixels, placed
at the group position 10, 2 with the parsed coordinates retained. -/
def gChild : PPTXElement :=
  .image (lit "7") (lit "P") 82 74 72 72 0 false false gUrl gUrl ⟨none, none, none⟩ 7 false
    (some 72) (some 72)

/-- Duplicate top-level element the independent picture scan produces for
the same picture node inside the group fixture. -/
def gTopPic : PPTXElement :=
  .image (lit "7") (lit "P") 72 72 72 72 0 false false gUrl gUrl ⟨none, none, none⟩ 7 false
    none none

/-- Group element the group fixture produces. -/
def gGroup : PPTXElement := .group (lit "9") 10 2 20 20 0 [gChild] 7

/-- Inner group fixture at offset 254000 EMU, holding the picture
fixture. -/
def nInner : Str := lit "<p:grpSp id=\"5\"><p:grpSpPr><p:xfrm><a:off x=\"254000\" y=\"0\"/><a:ext cx=\"254000\" cy=\"254000\"/></p:xfrm></p:grpSpPr>" ++ gPicNode ++ lit "</p:grpSp>"

/-- Nested-group slide fixture: an outer group at offset 127000 EMU whose
content holds the inner group. -/
def nSlide : Str := lit "<p:sld><p:spTree><p:grpSp id=\"9\"><p:grpSpPr><p:xfrm><a:off x=\"127000\" y=\"0\"/><a:ext cx=\"508000\" cy=\"508000\"/></p:xfrm></p:grpSpPr>" ++ nInner ++ lit "</p:grpSp></p:spTree></p:sld>"

/-- Child element the nested fixture produces: offset only by the outer
group position 10, never by the inner group position 20. -/
def nChild : PPTXElement :=
  .image (lit "7") (lit "P") 82 72 72 72 0 false false gUrl gUrl ⟨none, none, none⟩ 7 false
    (some 72) (some 72)

/-- Outer group element of the nested fixture, carrying the picture of
the inner group as its direct child. -/
def nGroup : PPTXElement := .group (lit "9") 10 0 40 40 0 [nChild] 7

/-- Duplicate top-level picture of the nested fixture. -/
def nTopPic : PPTXElement :=
  .image (lit "7") (lit "P") 72 72 72 72 0 false false gUrl gUrl ⟨none, none, none⟩ 7 false
    none none

/-- Two-shape slide fixture: two well-formed plain shape nodes with
transforms, identifiers 4 and 6. -/
def c2Shape1 : Str := lit "<p:sp><p:nvSpPr><p:cNvPr id=\"4\" name=\"R\"/></p:nvSpPr><p:spPr><a:xfrm><a:off x=\"914400\" y=\"0\"/><a:ext cx=\"914400\" cy=\"914400\"/></a:xfrm><a:prstGeom prst=\"rect\"/></p:spPr></p:sp>"

/-- Second shape of the two-shape slide fixture. -/
def c2Shape2 : Str := lit "<p:sp><p:nvSpPr><p:cNvPr id=\"6\" name=\"S\"/></p:nvSpPr><p:spPr><a:xfrm><a:off x=\"0\" y=\"0\"/><a:ext cx=\"914400\" cy=\"914400\"/></a:xfrm></p:spPr></p:sp>"

/-- Slide around the two shapes. -/
def c2Slide : Str := lit "<p:sld><p:spTree>" ++ c2Shape1 ++ c2Shape2 ++ lit "</p:spTree></p:sld>"

/-- Fragment carrying preset, scheme and system markers before an explicit
RGB marker. -/
def c6Frag : Str := lit "<a:prstClr val=\"red\"/><a:schemeClr val=\"accent1\"/><a:sysClr val=\"window\" lastClr=\"ABCDEF\"/><a:srgbClr val=\"FF0000\"/>"

/-- Gradient fragment with exactly one stop at native position 50000. -/
def c7OneStop : Str := lit "<a:gradFill rot=\"0\"><a:gsLst><a:gs pos=\"50000\"><a:srgbClr val=\"ABCDEF\"/></a:gs></a:gsLst></a:gradFill>"

/-- Gradient fragment with an empty stop list. -/
def c7ZeroStop : Str := lit "<a:gradFill rot=\"0\"><a:gsLst></a:gsLst></a:gradFill>"

/-- Slide fixture with an empty shape tree. -/
def c5Empty : Str := lit "<p:sld><p:spTree></p:spTree></p:sld>"

end Pptx

namespace Pptx

/-! Helper lemmas about the pipeline. -/

/-- Every successful shape extraction yields a shape-variant element with
no group-relative coordinates. -/
theorem extractShape_form {xml node : Str} {rels : RelMap} {zip : Zip}
    {o : Option (ℚ × ℚ)} {sc : ℚ} {el : PPTXElement}
    (h : extractShape xml node rels zip o sc = some el) :
    ∃ id name st x y w ht rot fH fV pr tc z,
      el = .shape id name st x y w ht rot fH fV pr tc z none none := by
  unfold extractShape at h
  split at h
  · exact Option.noConfusion h
  · dsimp only at h
    split at h
    · exact Option.noConfusion h
    · exact ⟨_, _, _, _, _, _, _, _, _, _, _, _, _, (Option.some.inj h).symm⟩

/-- Every successful image extraction yields an image-variant element
with no group-relative coordinates. -/
theorem extractImage_form {xml node : Str} {rels : RelMap} {zip : Zip}
    {o : Option (ℚ × ℚ)} {sc : ℚ} {el : PPTXElement}
    (h : extractImage xml node rels zip o sc = some el) :
    ∃ id name x y w ht rot fH fV src c d z ph,
      el = .image id name x y w ht rot fH fV src c d z ph none none := by
  unfold extractImage at h
  split at h
  · exact Option.noConfusion h
  · dsimp only at h
    split at h
    · exact Option.noConfusion h
    · split at h
      · exact Option.noConfusion h
      · split at h
        · exact ⟨_, _, _, _, _, _, _, _, _, _, _, _, _, _, (Option.some.inj h).symm⟩
        · exact ⟨_, _, _, _, _, _, _, _, _, _, _, _, _, _, (Option.some.inj h).symm⟩

/-- Payload replacement preserves the element variant. -/
theorem setSrc_isGroup (u : Str) (el : PPTXElement) : (setSrc u el).isGroup = el.isGroup := by
  cases el <;> rfl

/-- Loose-text fallback elements are never groups. -/
theorem mem_textPlaceholdersDelta {spc : Str} {now : Nat} {e : PPTXElement}
    (h : e ∈ extractTextFromPlaceholdersDelta spc now) : e.isGroup = false := by
  unfold extractTextFromPlaceholdersDelta at h
  dsimp only at h
  split at h
  · exact absurd h (List.not_mem_nil e)
  · rcases List.mem_singleton.1 h with rfl
    rfl

/-- Shape-scan contributions are never groups. -/
theorem mem_shapesDelta {xml spc : Str} {rels : RelMap} {zip : Zip} {now : Nat} {e : PPTXElement}
    (h : e ∈ extractShapeElementsDelta xml spc rels zip now) : e.isGroup = false := by
  unfold extractShapeElementsDelta at h
  rcases List.mem_append.1 h with h1 | h1
  · obtain ⟨node, -, hsome⟩ := List.mem_filterMap.1 h1
    obtain ⟨_, _, _, _, _, _, _, _, _, _, _, _, _, rfl⟩ := extractShape_form hsome
    rfl
  · split at h1
    · exact mem_textPlaceholdersDelta h1
    · exact absurd h1 (List.not_mem_nil e)

/-- Picture-scan contributions are never groups. -/
theorem mem_picsDelta {xml spc : Str} {rels : RelMap} {zip : Zip} {e : PPTXElement}
    (h : e ∈ extractPictureElementsDelta xml spc rels zip) : e.isGroup = false := by
  unfold extractPictureElementsDelta at h
  obtain ⟨node, -, hsome⟩ := List.mem_filterMap.1 h
  split at hsome
  · exact Option.noConfusion hsome
  · rename_i image himg
    obtain ⟨_, _, _, _, _, _, _, _, _, _, _, _, _, _, rfl⟩ := extractImage_form himg
    split at hsome
    · rcases Option.some.inj hsome with rfl
      rfl
    · split at hsome
      · rcases Option.some.inj hsome with rfl
        rfl
      · rcases Option.some.inj hsome with rfl
        rfl

/-- Each processed group contributes either non-group elements (the
childless fallback) or one group element satisfying the group
specification. -/
theorem processGroup_cases {xml : Str} {rels : RelMap} {zip : Zip}
    {o : Option (ℚ × ℚ)} {sc : ℚ} {now cnt : Nat} {attrs content : Str} {e : PPTXElement}
    (h : e ∈ processGroup xml rels zip o sc now cnt attrs content) :
    e.isGroup = false ∨ groupSpec e := by
  unfold processGroup at h
  dsimp only at h
  split at h
  · exact absurd h (List.not_mem_nil e)
  · split at h
    · exact absurd h (List.not_mem_nil e)
    · split at h
      · exact absurd h (List.not_mem_nil e)
      · split at h
        · rcases List.mem_append.1 h with h1 | h1
          · exact Or.inl (mem_shapesDelta h1)
          · exact Or.inl (mem_picsDelta h1)
        · rcases List.mem_singleton.1 h with rfl
          rename_i hne
          refine Or.inr ⟨?_, rfl, ?_⟩
          · intro hcontra
            exact hne (List.isEmpty_iff.2 hcontra)
          · intro c hc
            rcases List.mem_append.1 hc with h2 | h2
            · obtain ⟨node, -, hsome⟩ := List.mem_filterMap.1 h2
              obtain ⟨s, hs, rfl⟩ := Option.map_eq_some'.1 hsome
              obtain ⟨_, _, _, sx, sy, _, _, _, _, _, _, _, _, rfl⟩ := extractShape_form hs
              exact ⟨sx, sy, rfl, rfl, add_comm sx _, add_comm sy _⟩
            · obtain ⟨node, -, hsome⟩ := List.mem_filterMap.1 h2
              obtain ⟨s, hs, rfl⟩ := Option.map_eq_some'.1 hsome
              obtain ⟨_, _, sx, sy, _, _, _, _, _, _, _, _, _, _, rfl⟩ := extractImage_form hs
              exact ⟨sx, sy, rfl, rfl, add_comm sx _, add_comm sy _⟩

/-- Every element of the unsorted pipeline is either not a group or a
group satisfying the group specification. -/
theorem unsorted_mem_cases {xml : Str} {rels : RelMap} {zip : Zip}
    {o : Option (ℚ × ℚ)} {sc : ℚ} {now : Nat} {e : PPTXElement}
    (h : e ∈ extractSlideElementsUnsorted xml rels zip o sc now) :
    e.isGroup = false ∨ groupSpec e := by
  unfold extractSlideElementsUnsorted at h
  split at h
  · exact absurd h (List.not_mem_nil e)
  · dsimp only at h
    unfold extractGroupElements at h
    dsimp only at h
    split at h
    · rcases List.mem_singleton.1 h with rfl
      exact Or.inl rfl
    · rcases List.mem_append.1 h with h1 | h1
      · unfold extractPictureElements at h1
        rcases List.mem_append.1 h1 with h2 | h2
        · unfold extractShapeElements at h2
          rcases List.mem_append.1 h2 with h3 | h3
          · exact absurd h3 (List.not_mem_nil e)
          · exact Or.inl (mem_shapesDelta h3)
        · exact Or.inl (mem_picsDelta h2)
      · obtain ⟨p, -, hp⟩ := List.mem_flatMap.1 h1
        exact processGroup_cases hp

/-- Membership transfers through the final stable sort. -/
theorem sorted_mem {xml : Str} {rels : RelMap} {zip : Zip}
    {o : Option (ℚ × ℚ)} {sc : ℚ} {now : Nat} {e : PPTXElement}
    (h : e ∈ extractSlideElements xml rels zip o sc now) :
    e ∈ extractSlideElementsUnsorted xml rels zip o sc now :=
  (List.perm_insertionSort zle _).mem_iff.1 h

/-- Every group element of a slide result satisfies the group
specification. -/
theorem groups_spec {xml : Str} {rels : RelMap} {zip : Zip}
    {o : Option (ℚ × ℚ)} {sc : ℚ} {now : Nat} {e : PPTXElement}
    (h : e ∈ extractSlideElements xml rels zip o sc now) (hg : e.isGroup = true) :
    groupSpec e := by
  rcases unsorted_mem_cases (sorted_mem h) with h1 | h1
  · rw [hg] at h1
    exact Bool.noConfusion h1
  · exact h1

/-- Sorting a singleton is the identity. -/
theorem sortByZ_singleton (e : PPTXElement) : sortByZ [e] = [e] := rfl

/-- When the shape-tree container is present, the unsorted pipeline is
the scan phase guarded by the empty-slide placeholder check. -/
theorem unsorted_eq_scanned {xml spc : Str} {rels : RelMap} {zip : Zip}
    {o : Option (ℚ × ℚ)} {sc : ℚ} {now : Nat}
    (hsp : spTreeMatchOf xml = some spc) :
    extractSlideElementsUnsorted xml rels zip o sc now =
      if (scannedSlideElements xml spc rels zip o sc now).isEmpty then [placeholderElement now]
      else scannedSlideElements xml spc rels zip o sc now := by
  unfold extractSlideElementsUnsorted
  rw [hsp]
  rfl

/-- Gradient stop lists guarded by the zero-stop fallback are never
empty. -/
theorem stopsOrDefault_ne_nil (l : List PPTXGradientStop) :
    (if l.isEmpty then defaultGradientStops else l) ≠ [] := by
  cases hl : l.isEmpty
  · simp only [hl, Bool.false_eq_true, if_false]
    intro h
    rw [h] at hl
    exact Bool.noConfusion hl
  · simp only [hl, if_true]
    exact fun h => List.noConfusion h

/-- Synthesized placeholder payloads are nonempty. -/
theorem generatePlaceholderImage_ne_nil (name : Str) : generatePlaceholderImage name ≠ [] := by
  unfold generatePlaceholderImage
  intro h
  exact absurd (List.append_eq_nil.1 h).1 (by decide)

/-- Evaluation of the group fixture: the picture node appears once as a
duplicate top-level element and once as the group child. -/
theorem gSlide_eval : extractSlideElements gSlide gRels gZip none 1 0 = [gTopPic, gGroup] := by
  with_unfolding_all rfl

/-- Membership of the fixture group in the fixture slide result. -/
theorem gGroup_mem : gGroup ∈ extractSlideElements gSlide gRels gZip none 1 0 := by
  rw [gSlide_eval]
  exact List.mem_cons_of_mem _ (List.mem_cons_self _ _)

end Pptx

namespace Pptx

/-- Claim C1: the claim says every element's pixel position and size is
computed with the one global scale factor derived from the package's
declared native slide width, and that no element conversion substitutes a
different (for example default) slide width.  The code violates this: the
position converters call emuToScaledX and emuToScaledY, which always use
the default slide width, and ignore the threaded scale factor entirely.
This theorem evaluates the embedded code at the failing input: for a
package declaring a native width of 9144000 EMU, whose global scale
factor makes one inch exactly 96 pixels, the picture-position converter
still produces 72 pixels (the default-width scaling), and passing the
declared-width scale factor to the image extractor changes nothing. -/
theorem claimC1_code_divergence :
    extractImagePosition gPicNode = some ⟨72, 72, 72, 72, 0, false, false⟩ ∧
    extractImage [] gPicNode gRels gZip none (calculateScaleFactor 9144000 RENDER_WIDTH) =
      extractImage [] gPicNode gRels gZip none 1 ∧
    emuToPixels 914400 (calculateScaleFactor 9144000 RENDER_WIDTH) = 96 ∧
    (72 : ℚ) ≠ 96 := by
  refine ⟨by with_unfolding_all rfl, by with_unfolding_all rfl, ?_, by norm_num⟩
  norm_num [emuToPixels, calculateScaleFactor, EMU_PER_INCH, PIXELS_PER_INCH, RENDER_WIDTH]

/-- Claim C2: the claim says the number of extracted elements equals the
count of plain-shape plus picture plus recursive group-child nodes, with
no node contributing more than one element.  The code violates this: its
shape-position regex is mistyped (a doubled-backslash character class), so
every well-formed plain shape is dropped; a slide holding two plain shapes
yields one synthesized diagnostic placeholder instead of two shape
elements.  This theorem evaluates the embedded code at that failing
input: the container is found, the shape scan matches exactly the two
shape nodes, and the final output is the single placeholder element. -/
theorem claimC2_code_divergence :
    spTreeMatchOf c2Slide = some (c2Shape1 ++ c2Shape2) ∧
    (searchAll pSpNode (c2Shape1 ++ c2Shape2)).length = 2 ∧
    extractSlideElements c2Slide [] [] none 1 0 = [placeholderElement 0] :=
  ⟨by decide, by decide, by with_unfolding_all rfl⟩

/-- Claim C3 (amended): for every group element the builder produces, each
extracted child's absolute position equals the group's position plus the
child's parsed group-local position, and the parsed group-local
coordinates are separately retained on the child.  The amendment restricts
the claim to the single nesting depth the builder supports: the code does
not recurse into nested groups, so children of an inner group are placed
relative to the outermost processed group only (see the
counterexample). -/
theorem claimC3_amended (xml : Str) (rels : RelMap) (zip : Zip)
    (o : Option (ℚ × ℚ)) (sc : ℚ) (now : Nat) (e : PPTXElement)
    (he : e ∈ extractSlideElements xml rels zip o sc now)
    (hg : e.isGroup = true) :
    ∀ c ∈ e.childrenOf, childPlacement e c :=
  (groups_spec he hg).2.2

/-- Claim C3 counterexample: in the nested-group fixture the inner group
sits at parsed position 20 inside an outer group at position 10, and the
picture inside the inner group has parsed local position 72.  The claim,
at nesting depth two, requires the picture's absolute position to be the
inner group's position plus the local position (92 when the inner
position is read group-locally, 102 when read slide-absolutely), but the
produced child element sits at 82: the code adds only the outer group's
position. -/
theorem claimC3_counterexample :
    extractSlideElements nSlide gRels gZip none 1 0 = [nTopPic, nGroup] ∧
    nChild.xVal = 82 ∧ nChild.groupRelX = some 72 ∧
    ((jsInt (lit "254000") : ℚ) / 12700 * 1 = 20) ∧
    (82 : ℚ) ≠ 20 + 72 ∧ (82 : ℚ) ≠ 10 + 20 + 72 :=
  ⟨by with_unfolding_all rfl, by with_unfolding_all rfl, by with_unfolding_all rfl,
    by with_unfolding_all rfl, by norm_num, by norm_num⟩

/-- Claim C3 witness: the single-group fixture produces a group at
position 10, 2 whose child retains its parsed coordinates 72, 72 and sits
at 82, 74. -/
theorem claimC3_witness : childPlacement gGroup gChild :=
  claimC3_amended gSlide gRels gZip none 1 0 gGroup gGroup_mem rfl gChild
    (List.mem_cons_self _ _)

/-- Claim C4: for every picture node whose backing binary cannot be
located by any path strategy, image extraction still succeeds and yields
an image element with the placeholder flag set and a nonempty synthesized
payload.  The hypotheses state the claim's premise on the embedded code:
the node carries an identifier and a transform, its embed relationship
resolves to a path, and every path strategy misses. -/
theorem claimC4_confirmed (xml picNode : Str) (rels : RelMap) (zip : Zip)
    (o : Option (ℚ × ℚ)) (sc : ℚ) (src : Str)
    (hid : (searchFirst pIdDigits picNode).isSome)
    (hpos : (extractImagePosition picNode).isSome)
    (hsrc : extractImageSource picNode rels (lit "ppt/slides") = some src)
    (hmiss : createImageDataUrl src zip = none) :
    ∃ el, extractImage xml picNode rels zip o sc = some el ∧
      el.placeholderFlag = true ∧ el.srcOf ≠ [] := by
  obtain ⟨idr, hid'⟩ := Option.isSome_iff_exists.1 hid
  obtain ⟨pos, hpos'⟩ := Option.isSome_iff_exists.1 hpos
  unfold extractImage
  rw [hid']
  dsimp only
  rw [hpos', hsrc]
  dsimp only
  rw [hmiss]
  exact ⟨_, rfl, rfl, generatePlaceholderImage_ne_nil _⟩

/-- Claim C4 witness: the picture fixture against an empty archive. -/
theorem claimC4_witness :
    ∃ el, extractImage [] gPicNode gRels [] none 1 = some el ∧
      el.placeholderFlag = true ∧ el.srcOf ≠ [] :=
  claimC4_confirmed [] gPicNode gRels [] none 1 (lit "media/img.png")
    (by decide) (by with_unfolding_all rfl) (by decide) (by decide)

/-- Claim C5 (amended): for every slide whose XML contains a shape-tree
container, the output is never empty, and when the scan phase produced
zero elements the output is exactly the one synthesized diagnostic
placeholder text element.  The amendment adds the container requirement:
a slide without a shape-tree container returns an empty list (see the
counterexample). -/
theorem claimC5_amended (xml spc : Str) (rels : RelMap) (zip : Zip)
    (o : Option (ℚ × ℚ)) (sc : ℚ) (now : Nat)
    (hsp : spTreeMatchOf xml = some spc) :
    extractSlideElements xml rels zip o sc now ≠ [] ∧
    (scannedSlideElements xml spc rels zip o sc now = [] →
      extractSlideElements xml rels zip o sc now = [placeholderElement now]) := by
  have hu := @unsorted_eq_scanned xml spc rels zip o sc now hsp
  constructor
  · intro hout
    have hperm := List.perm_insertionSort zle (extractSlideElementsUnsorted xml rels zip o sc now)
    rw [show extractSlideElements xml rels zip o sc now =
        List.insertionSort zle (extractSlideElementsUnsorted xml rels zip o sc now) from rfl] at hout
    rw [hout] at hperm
    have hu0 := hperm.symm.eq_nil
    rw [hu] at hu0
    split at hu0
    · exact List.noConfusion hu0
    · rename_i hcond
      exact hcond (List.isEmpty_iff.2 hu0)
  · intro hscan
    have hplace : extractSlideElementsUnsorted xml rels zip o sc now = [placeholderElement now] := by
      rw [hu, if_pos (List.isEmpty_iff.2 hscan)]
    rw [show extractSlideElements xml rels zip o sc now =
        sortByZ (extractSlideElementsUnsorted xml rels zip o sc now) from rfl, hplace]
    exact sortByZ_singleton _

/-- Claim C5 counterexample: a slide without a shape-tree container
produces an empty element list, not a placeholder, so the claim as stated
over every zero-element slide input is false. -/
theorem claimC5_counterexample :
    extractSlideElements (lit "<p:sld></p:sld>") [] [] none 1 0 = [] := rfl

/-- Claim C5 witness: a slide with an empty shape tree yields exactly the
diagnostic placeholder. -/
theorem claimC5_witness :
    extractSlideElements c5Empty [] [] none 1 0 = [placeholderElement 0] ∧
    extractSlideElements c5Empty [] [] none 1 0 ≠ [] := by
  have h := claimC5_amended c5Empty [] [] [] none 1 0 rfl
  exact ⟨h.2 rfl, h.1⟩

/-- Claim C6 (amended): color extraction is deterministic with priority
explicit RGB, then scheme reference, then system color (its resolved
lastClr fallback returned as an RGB color when present, else the named
system value); preset markers are not recognized and yield no color (see
the counterexample).  In particular, whenever an explicit RGB marker is
present, the result is that RGB color regardless of any scheme, system or
preset markers. -/
theorem claimC6_amended (s v : Str)
    (h : searchTagAttr (lit "<a:srgbClr") (lit "val=\"") s = some v) :
    extractColor s = some (.rgb ('#' :: v)) := by
  unfold extractColor
  rw [h]

/-- Claim C6 counterexample: a fragment holding only a preset color
marker yields no color, although the claim's priority order ends with
preset. -/
theorem claimC6_counterexample :
    extractColor (lit "<a:prstClr val=\"FF0000\"/>") = none := by decide

/-- Claim C6 witness: with preset, scheme and system markers all present
before the explicit RGB marker, the explicit RGB wins. -/
theorem claimC6_witness : extractColor c6Frag = some (.rgb (lit "#FF0000")) :=
  claimC6_amended c6Frag (lit "FF0000") (by decide)

/-- Claim C7 (amended): for a gradient-fill fragment reached by the fill
extractor, stop positions are native thousandths divided by 1000, and the
synthesized two-stop white-to-black fallback is used exactly when zero
stops were extracted, so the output stop list is never empty.  The
amendment replaces the claimed fewer-than-two trigger by the
zero-extracted trigger of the code: a single extracted stop is kept as
the whole gradient (see the counterexample). -/
theorem claimC7_amended (s gradAttrs gradContent : Str) (rest : Str)
    (h1 : strIncludes (lit "<a:noFill/>") s = false)
    (h2 : (searchTagged (lit "<a:solidFill>") (lit "</a:solidFill>") s).bind extractColor = none)
    (h3 : searchFirst pGradFill s = some ((gradAttrs, gradContent), rest)) :
    ∃ angle path,
      extractFill s = some (.gradient
        (if (parsedStopsOf gradContent).isEmpty then defaultGradientStops
         else parsedStopsOf gradContent) angle path) ∧
      (if (parsedStopsOf gradContent).isEmpty then defaultGradientStops
       else parsedStopsOf gradContent) ≠ [] := by
  unfold extractFill
  rw [h1]
  simp only [Bool.false_eq_true, if_false]
  rw [h2]
  dsimp only
  rw [h3]
  dsimp only
  exact ⟨_, _, rfl, stopsOrDefault_ne_nil _⟩

/-- Claim C7 counterexample: a gradient fragment with exactly one stop
keeps that single stop (at normalized position 50), so the output
gradient does not always carry at least two stops as claimed. -/
theorem claimC7_counterexample :
    extractFill c7OneStop =
      some (.gradient [⟨50, .rgb (lit "#ABCDEF")⟩] 0 none) ∧
    ¬ (2 : Nat) ≤ ([⟨50, PPTXColor.rgb (lit "#ABCDEF")⟩] : List PPTXGradientStop).length :=
  ⟨by with_unfolding_all rfl, by decide⟩

/-- Claim C7 witness: a gradient fragment with an empty stop list takes
the synthesized white-to-black fallback. -/
theorem claimC7_witness :
    ∃ angle path,
      extractFill c7ZeroStop = some (.gradient
        (if (parsedStopsOf (lit "<a:gsLst></a:gsLst>")).isEmpty then defaultGradientStops
         else parsedStopsOf (lit "<a:gsLst></a:gsLst>")) angle path) ∧
      (if (parsedStopsOf (lit "<a:gsLst></a:gsLst>")).isEmpty then defaultGradientStops
       else parsedStopsOf (lit "<a:gsLst></a:gsLst>")) ≠ [] :=
  claimC7_amended c7ZeroStop (lit " rot=\"0\"") (lit "<a:gsLst></a:gsLst>") []
    (by decide) (by decide) (by decide)

/-- Claim C8: every slide's final element list is the stable ascending
sort of the scanned elements by draw-order key, so the keys form a
non-decreasing sequence and the list is a permutation of the unsorted
scan (stability, and hence document order on ties, is the definition of
the embedded sort, which models the stable Array sort of the runtime). -/
theorem claimC8_confirmed (xml : Str) (rels : RelMap) (zip : Zip)
    (o : Option (ℚ × ℚ)) (sc : ℚ) (now : Nat) :
    List.Pairwise (fun a b : PPTXElement => a.zVal ≤ b.zVal)
      (extractSlideElements xml rels zip o sc now) ∧
    (extractSlideElements xml rels zip o sc now).Perm
      (extractSlideElementsUnsorted xml rels zip o sc now) :=
  ⟨List.sorted_insertionSort zle _, List.perm_insertionSort zle _⟩

/-- Claim C9: converting a native-unit length to typographic points and
the points to pixels equals converting the length directly to pixels at
scale factor one; the conversion constants agree exactly over the
rationals, so the claimed floating-point tolerance is met. -/
theorem claimC9_confirmed (L : ℚ) (_hL : 0 ≤ L) :
    pointsToPixels (emuToPoints L) = emuToPixels L 1 := by
  unfold pointsToPixels emuToPoints emuToPixels EMU_PER_POINT EMU_PER_INCH PIXELS_PER_INCH
  ring

/-- Claim C9 witness at length three. -/
theorem claimC9_witness : (0 : ℚ) ≤ 3 ∧ pointsToPixels (emuToPoints 3) = emuToPixels 3 1 :=
  ⟨by norm_num, claimC9_confirmed 3 (by norm_num)⟩

/-- Claim C10 (implicit): every group element produced by slide
extraction has at least one child, and its draw-order key equals the
minimum of its children's draw-order keys. -/
theorem claimC10_confirmed (xml : Str) (rels : RelMap) (zip : Zip)
    (o : Option (ℚ × ℚ)) (sc : ℚ) (now : Nat) (e : PPTXElement)
    (he : e ∈ extractSlideElements xml rels zip o sc now)
    (hg : e.isGroup = true) :
    e.childrenOf ≠ [] ∧ e.zVal = listMin (e.childrenOf.map PPTXElement.zVal) :=
  ⟨(groups_spec he hg).1, (groups_spec he hg).2.1⟩

/-- Claim C10 witness: the fixture group's key is the minimum (seven) of
its one child's key. -/
theorem claimC10_witness :
    gGroup.childrenOf ≠ [] ∧ gGroup.zVal = listMin (gGroup.childrenOf.map PPTXElement.zVal) :=
  claimC10_confirmed gSlide gRels gZip none 1 0 gGroup gGroup_mem rfl

end Pptx
